import Mathlib

set_option maxHeartbeats 1000000

/-!
Verification of the royalty computation engine (`src/models/royalty.py`) and the
subrights resolver (`src/routers/contract_docs.py`).

Python floats are modelled as rationals; Python ints as integers.  Python dicts
keyed by strings are modelled as total functions with the dict's lookup default.
The display strings of `RoyaltyCalculation` and `PaymentSummary` are pure
renderings of underlying numbers; the embedding carries those numbers directly
and the net-revenue marker as a Bool.
-/

/-- `TierCondition` from royalty.py: kind is "units" or "discount". -/
structure TierCondition where
  kind : String
  comparator : String := "<"
  value : ℚ
deriving DecidableEq

/-- `RoyaltyTier` from royalty.py. -/
structure RoyaltyTier where
  rate_percent : ℚ
  conditions : List TierCondition := []
deriving DecidableEq

/-- `RightsBlock` from royalty.py. -/
structure RightsBlock where
  format : String
  base : String := "list_price"
  tiers : List RoyaltyTier := []
  flat_rate_percent : Option ℚ := none
deriving DecidableEq

/-- `Subright` from royalty.py (carried on PartyRights; unused by the calculator). -/
structure Subright where
  name : String
  mode : Option String := none
  percent : Option ℚ := none
  base : Option String := none
deriving DecidableEq

/-- `PartyRights` from royalty.py. -/
structure PartyRights where
  first_rights : List RightsBlock := []
  subrights : List Subright := []
deriving DecidableEq

/-- `RichRoyalties` from royalty.py. -/
structure RichRoyalties where
  author : PartyRights := {}
  illustrator : PartyRights := {}
deriving DecidableEq

/-- `Book` from royalty.py, restricted to the single field the statement
calculator reads (`book.royalties`; all other fields feed rendering only). -/
structure Book where
  royalties : Option RichRoyalties := none
deriving DecidableEq

/-- `SalesData` from royalty.py. -/
structure SalesData where
  category : String
  units : ℤ := 0
  returns : ℤ := 0
  unit_price_or_net_revenue : ℚ := 0
  discount : ℚ := 0
  net_revenue : Bool := false
deriving DecidableEq

/-- One fragment produced by `_compute_line` (dict with keys units,
rate_percent, value_amount, royalty_amount). -/
structure Fragment where
  units : ℚ
  rate_percent : ℚ
  value_amount : ℚ
  royalty_amount : ℚ
deriving DecidableEq

/-- `RoyaltyCalculation` row from royalty.py with the numbers underlying its
formatted strings; `net_revenue` true renders as the filled-square marker. -/
structure Row where
  category : String
  units : ℤ
  returns : ℤ
  net_units : ℤ
  lifetime_quantity : ℤ
  returns_to_date : ℤ
  unit_price : ℚ
  royalty_rate_percent : ℚ
  discount : ℚ
  net_revenue : Bool
  value : ℚ
  royalty : ℚ
deriving DecidableEq

/-- The two mutable per-category counter dicts threaded through `calc_party`. -/
structure CalcState where
  lifetime : String → ℤ
  returnsToDate : String → ℤ

/-- The per-party output of `calc_party`: rows plus the `raw_totals` numbers
underlying `PaymentSummary`. -/
structure PartyOut where
  rows : List Row
  advance : ℚ
  royalty_total : ℚ
  last_balance : ℚ
  balance : ℚ
  payable : ℚ

/-- `RoyaltyStatementRequest` from royalty.py; the rate dicts are modelled as
total functions returning the dict-lookup default 0. -/
structure RoyaltyStatementRequest where
  uid : String := ""
  period_start : String := ""
  period_end : String := ""
  sales_data : List SalesData := []
  author_rates : String → ℚ := fun _ => 0
  illustrator_rates : String → ℚ := fun _ => 0
  author_advance : ℚ := 0
  illustrator_advance : ℚ := 0

/-- `RoyaltyStatement` from royalty.py. -/
structure RoyaltyStatement where
  uid : String
  period_start : String
  period_end : String
  sales_data : List SalesData
  author : PartyOut
  illustrator : PartyOut
  lifetime_quantity_by_cat : String → ℤ
  returns_to_date_by_cat : String → ℤ

/-- Substring test on char lists: Python's `pat in s`. -/
def containsSubChars (pat : List Char) : List Char → Bool
  | [] => pat.isEmpty
  | c :: t => List.isPrefixOf pat (c :: t) || containsSubChars pat t

/-- Python's `pat in s` on strings. -/
def containsSub (s pat : String) : Bool :=
  containsSubChars pat.toList s.toList

/-- Python's `str.lower()` (ASCII letters, as used by the source data). -/
def pyLower (s : String) : String :=
  String.mk (s.toList.map Char.toLower)

/-- Python's `str.strip()`. -/
def pyStrip (s : String) : String :=
  String.mk (((s.toList.dropWhile Char.isWhitespace).reverse.dropWhile Char.isWhitespace).reverse)

/-- Python's `s.startswith(pat)`. -/
def pyStartsWith (s pat : String) : Bool :=
  List.isPrefixOf pat.toList s.toList

/-- Everything after the first dash: Python's `c.split("-", 1)[1]`. -/
def tailAfterFirstDash : List Char → List Char
  | [] => []
  | c :: t => if c = '-' then t else tailAfterFirstDash t

/-- `category_to_format` from royalty.py. -/
def category_to_format (cat : String) : String :=
  let c := pyLower (pyStrip cat)
  if containsSub c "hc" && containsSub c "can" then "Hardcover"
  else if containsSub c "pb" && containsSub c "can" then "Paperback"
  else if pyStartsWith c "canada-" then
    if pyStartsWith (pyLower (String.mk (tailAfterFirstDash c.toList))) "hc" then "Hardcover"
    else "Paperback"
  else if c == "hardcover" || c == "hc" then "Hardcover"
  else if c == "paperback" || c == "pb" then "Paperback"
  else if c == "board book" || c == "boardbook" then "Board Book"
  else if containsSub c "ebook" || c == "e-book" then "E-book"
  else cat

/-- `getattr(book.royalties, party, PartyRights())` from `_find_rights_block`. -/
def getPartyRights (r : RichRoyalties) (party : String) : PartyRights :=
  if party == "author" then r.author
  else if party == "illustrator" then r.illustrator
  else {}

/-- `_find_rights_block` from royalty.py. -/
def _find_rights_block (book : Book) (party : String) (fmt : String) : Option RightsBlock :=
  match book.royalties with
  | none => none
  | some roy =>
    (getPartyRights roy party).first_rights.find?
      (fun block => pyLower (pyStrip block.format) == pyLower (pyStrip fmt))

/-- The `Comparator` dispatch table from royalty.py. -/
def comparatorApply (s : String) : Option (ℚ → ℚ → Bool) :=
  if s == "<" then some (fun a b => decide (a < b))
  else if s == "<=" then some (fun a b => decide (a ≤ b))
  else if s == ">" then some (fun a b => decide (b < a))
  else if s == ">=" then some (fun a b => decide (b ≤ a))
  else if s == "==" then some (fun a b => decide (a = b))
  else none

/-- The per-tier eligibility check inside `_pick_tiers`: every discount-kind
condition must evaluate true (other kinds are skipped); `c.comparator or "<"`
treats an empty comparator as `<`. -/
def tierDiscountOk (t : RoyaltyTier) (discount : ℚ) : Bool :=
  t.conditions.all (fun c =>
    if c.kind == "discount" then
      match comparatorApply (if c.comparator == "" then "<" else c.comparator) with
      | none => false
      | some comp => comp discount c.value
    else true)

/-- `_pick_tiers` from royalty.py. -/
def _pick_tiers (block : RightsBlock) (discount : ℚ) : List RoyaltyTier :=
  let tiers := block.tiers
  let any_discount := tiers.any (fun t => t.conditions.any (fun c => c.kind == "discount"))
  let chosen := tiers.filter (fun t => tierDiscountOk t discount)
  if chosen.isEmpty && any_discount then []
  else if chosen.isEmpty then tiers
  else chosen

/-- `_prorate_units_across_threshold` from royalty.py. -/
def _prorate_units_across_threshold (lifetime_before add_units threshold : ℚ) : ℚ × ℚ :=
  if threshold ≤ lifetime_before then (0, add_units)
  else
    let remaining_low := max 0 (threshold - lifetime_before)
    let low_units := min add_units remaining_low
    let high_units := max 0 (add_units - low_units)
    (low_units, high_units)

/-- `any(c.kind == "units" for c in t.conditions)`. -/
def hasUnitsCond (t : RoyaltyTier) : Bool :=
  t.conditions.any (fun c => c.kind == "units")

/-- One step of the threshold/low-rate/high-rate scan in `_compute_line`
(the loop body over a tier's conditions, with the tier's rate `r`). -/
def scanStep (r : ℚ) (acc : Option ℚ × Option ℚ × Option ℚ) (c : TierCondition) :
    Option ℚ × Option ℚ × Option ℚ :=
  if c.kind == "units" then
    if c.comparator == "<=" || c.comparator == "<" then (some c.value, some r, acc.2.2)
    else if c.comparator == ">" || c.comparator == ">=" then (acc.1, acc.2.1, some r)
    else acc
  else acc

/-- The full scan over `unit_tiers` in `_compute_line`, yielding
(threshold, low_rate, high_rate). -/
def scanTiers (unit_tiers : List RoyaltyTier) : Option ℚ × Option ℚ × Option ℚ :=
  unit_tiers.foldl (fun acc t => t.conditions.foldl (scanStep t.rate_percent) acc)
    (none, none, none)

/-- `add_fragment` from `_compute_line`: skip when `not units or units <= 0`;
`rate or 0.0` defaults a missing rate to 0. -/
def add_fragment (unit_price : ℚ) (units : ℚ) (rate : Option ℚ) : List Fragment :=
  if units ≤ 0 then []
  else
    let r := rate.getD 0
    [⟨units, r, unit_price * units, unit_price * r / 100 * units⟩]

/-- Sum of the `value_amount` entries of a fragment list. -/
def sumValue (fs : List Fragment) : ℚ :=
  (fs.map Fragment.value_amount).sum

/-- Sum of the `royalty_amount` entries of a fragment list. -/
def sumRoyalty (fs : List Fragment) : ℚ :=
  (fs.map Fragment.royalty_amount).sum

/-- The single whole-line fragment built three times inside `_compute_line`
(flat fallback, no-units-tier case, and unresolved-threshold fallback):
`{units, rate, unit_price*units, unit_price*rate/100*units}`. -/
def lineFromRate (unit_price net_units_this_period rate : ℚ) : List Fragment :=
  [⟨net_units_this_period, rate, unit_price * net_units_this_period,
    unit_price * rate / 100 * net_units_this_period⟩]

/-- The units-tiered tail of `_compute_line`: scan `unit_tiers` for the
threshold and rates; if no threshold resolved, fall back to the first
unit-tier's rate, else prorate and emit up to two fragments. -/
def computeUnitTiers (u0 : RoyaltyTier) (urest : List RoyaltyTier)
    (lifetime_before net_units_this_period unit_price : ℚ) : List Fragment :=
  match scanTiers (u0 :: urest) with
  | (none, _, _) => lineFromRate unit_price net_units_this_period u0.rate_percent
  | (some threshold, low_rate, high_rate) =>
    add_fragment unit_price
      (_prorate_units_across_threshold lifetime_before net_units_this_period threshold).1 low_rate
    ++ add_fragment unit_price
      (_prorate_units_across_threshold lifetime_before net_units_this_period threshold).2 high_rate

/-- The branch of `_compute_line` taken when `_pick_tiers` returned the
non-empty list `t0 :: trest`. -/
def computeTiered (t0 : RoyaltyTier) (trest : List RoyaltyTier)
    (lifetime_before net_units_this_period unit_price : ℚ) : List Fragment :=
  match (t0 :: trest).filter hasUnitsCond with
  | [] => lineFromRate unit_price net_units_this_period t0.rate_percent
  | u0 :: urest => computeUnitTiers u0 urest lifetime_before net_units_this_period unit_price

/-- `_compute_line` from royalty.py (`net_revenue_mode` is accepted and,
exactly as in the source, never read). -/
def _compute_line (block : RightsBlock) (lifetime_before net_units_this_period unit_price discount : ℚ)
    (_net_revenue_mode : Bool) : List Fragment :=
  match _pick_tiers block discount with
  | [] => lineFromRate unit_price net_units_this_period (block.flat_rate_percent.getD 0)
  | t0 :: trest => computeTiered t0 trest lifetime_before net_units_this_period unit_price

/-- Pointwise update of a counter dict: `d[k] = v`. -/
def updFn (m : String → ℤ) (k : String) (v : ℤ) : String → ℤ :=
  fun x => if x = k then v else m x

/-- One iteration of the sales loop inside `calc_party`: builds the row and
performs the two counter-dict updates. -/
def processEntry (book : Book) (party : String) (simple_rates : String → ℚ)
    (st : CalcState) (sd : SalesData) : Row × CalcState :=
  let units := sd.units
  let rets := sd.returns
  let net_units := units - rets
  let lifetime_before := st.lifetime sd.category
  let unit_price := sd.unit_price_or_net_revenue
  let discount := sd.discount
  let net_mode := sd.net_revenue
  let vre : ℚ × ℚ × ℚ :=
    match book.royalties with
    | some _ =>
      let fmt := category_to_format sd.category
      match _find_rights_block book party fmt with
      | some block =>
        let fragments := _compute_line block (lifetime_before : ℚ) (net_units : ℚ) unit_price discount net_mode
        let value_amount := sumValue fragments
        let royalty_amount := sumRoyalty fragments
        let eff_rate := if 0 < value_amount then royalty_amount / value_amount * 100 else 0
        (value_amount, royalty_amount, eff_rate)
      | none => (unit_price * ((max net_units 0 : ℤ) : ℚ), 0, 0)
    | none =>
      let rate := simple_rates sd.category
      let value_amount := unit_price * ((max net_units 0 : ℤ) : ℚ)
      (value_amount, value_amount * rate / 100, rate)
  let row : Row :=
    { category := sd.category
      units := units
      returns := rets
      net_units := net_units
      lifetime_quantity := lifetime_before
      returns_to_date := st.returnsToDate sd.category
      unit_price := unit_price
      royalty_rate_percent := vre.2.2
      discount := discount
      net_revenue := net_mode
      value := vre.1
      royalty := vre.2.1 }
  let st' : CalcState :=
    { lifetime := updFn st.lifetime sd.category (lifetime_before + net_units)
      returnsToDate := updFn st.returnsToDate sd.category (st.returnsToDate sd.category + rets) }
  (row, st')

/-- The sales loop of `calc_party` over the whole list. -/
def runEntries (book : Book) (party : String) (simple_rates : String → ℚ) :
    List SalesData → CalcState → List Row × CalcState
  | [], st => ([], st)
  | sd :: rest, st =>
    let rs := processEntry book party simple_rates st sd
    let rest' := runEntries book party simple_rates rest rs.2
    (rs.1 :: rest'.1, rest'.2)

/-- Total royalty accumulated over the rows (`total_royalty` in `calc_party`). -/
def sumRowsRoyalty (rows : List Row) : ℚ :=
  (rows.map Row.royalty).sum

/-- `calc_party` from `calculate_statement`: rows plus the summary numbers. -/
def calc_party (book : Book) (party : String) (simple_rates : String → ℚ)
    (advance : ℚ) (last_balance : ℚ) (sales : List SalesData) (st : CalcState) :
    PartyOut × CalcState :=
  let res := runEntries book party simple_rates sales st
  let total_royalty := sumRowsRoyalty res.1
  let lb := if last_balance = 0 ∧ ¬ advance = 0 then -advance else last_balance
  let balance := lb + total_royalty
  let payable := max 0 balance
  ({ rows := res.1
     advance := advance
     royalty_total := total_royalty
     last_balance := lb
     balance := balance
     payable := payable }, res.2)

/-- `calculate_statement` from royalty.py: the author pass runs first and the
illustrator pass runs on the same (already updated) counter dicts. -/
def calculate_statement (book : Book) (req : RoyaltyStatementRequest)
    (lifetime_quantity_by_cat returns_to_date_by_cat : String → ℤ)
    (last_balance_author last_balance_illustrator : ℚ) : RoyaltyStatement :=
  let st0 : CalcState :=
    { lifetime := lifetime_quantity_by_cat, returnsToDate := returns_to_date_by_cat }
  let aRes := calc_party book "author" req.author_rates req.author_advance
    last_balance_author req.sales_data st0
  let iRes := calc_party book "illustrator" req.illustrator_rates req.illustrator_advance
    last_balance_illustrator req.sales_data aRes.2
  { uid := req.uid
    period_start := req.period_start
    period_end := req.period_end
    sales_data := req.sales_data
    author := aRes.1
    illustrator := iRes.1
    lifetime_quantity_by_cat := iRes.2.lifetime
    returns_to_date_by_cat := iRes.2.returnsToDate }

/-- Net units contributed to category `c` by a sales list. -/
def netSumCat (sales : List SalesData) (c : String) : ℤ :=
  (sales.map (fun sd => if sd.category = c then sd.units - sd.returns else 0)).sum

/-- Returns contributed to category `c` by a sales list. -/
def retSumCat (sales : List SalesData) (c : String) : ℤ :=
  (sales.map (fun sd => if sd.category = c then sd.returns else 0)).sum

/-- A subrights entry as read by `_populate_subrights` in contract_docs.py
(a JSON dict with keys name, percent, variants).  Percent values are carried
as their `str(...)` renderings, since the resolver only stringifies and
stores them. -/
structure SubrightItem where
  name : String := ""
  percent : Option String := none
  variants : List (String × Option String) := []
deriving DecidableEq

/-- `norm` from `_populate_subrights`: lowercase, collapse each run of
non-alphanumeric characters to one space, strip.  Implemented as: split into
maximal alphanumeric runs and re-join with single spaces. -/
def splitNonAlnum : List Char → List (List Char)
  | [] => [[]]
  | c :: t =>
    let r := splitNonAlnum t
    if c.isLower || c.isDigit then
      match r with
      | [] => [[c]]
      | w :: ws => (c :: w) :: ws
    else [] :: r

/-- `norm` from `_populate_subrights`. -/
def normStr (s : String) : String :=
  String.intercalate " "
    (((splitNonAlnum (pyLower s).toList).filter (fun w => !w.isEmpty)).map String.mk)

/-- `values[token] = v` on the token dict. -/
def setVal (values : String → Option String) (token : String) (v : String) :
    String → Option String :=
  fun x => if x = token then some v else values x

/-- `find_sub` from `_populate_subrights`. -/
def find_sub (subrights : List SubrightItem) (fragment : String) : Option SubrightItem :=
  subrights.find? (fun item => containsSub (normStr item.name) (pyLower fragment))

/-- `set_percent` from `_populate_subrights`. -/
def set_percent (values : String → Option String) (token : String)
    (item : Option SubrightItem) (variant_key : Option String) : String → Option String :=
  match item with
  | none => values
  | some it =>
    match variant_key with
    | some vk =>
      match it.variants.lookup vk with
      | some (some v) => setVal values token v
      | _ => values
    | none =>
      match it.percent with
      | some p => setVal values token p
      | none => values

/-- `_populate_subrights` from contract_docs.py, returning the updated token
dict. -/
def _populate_subrights (subrights : List SubrightItem)
    (values : String → Option String) : String → Option String :=
  if subrights.isEmpty then
    setVal (setVal values "Sub_Canada" "2/3") "Sub_Export" "2/3"
  else
    let v1 := set_percent values "Sub_HC_PB_LargeType" (find_sub subrights "hardcover paperback") none
    let v2 := set_percent v1 "Sub_Anthologies" (find_sub subrights "anthologies") none
    let v3 := set_percent v2 "Sub_BookClub" (find_sub subrights "book club") none
    let first_serial := find_sub subrights "first serial"
    let v4 := set_percent v3 "Sub_FirstSerial_Text" first_serial (some "text_only")
    let v5 := set_percent v4 "Sub_FirstSerial_Illustrated" first_serial (some "text_and_art")
    let v6 := set_percent v5 "Sub_SecondSerial" (find_sub subrights "second serial") (some "text_only")
    let audio :=
      match find_sub subrights "audiobook" with
      | some a => some a
      | none => find_sub subrights "audiobooks"
    let v7 := set_percent v6 "Sub_Audio_Physical" audio (some "physical")
    let v8 := set_percent v7 "Sub_Audio_Digital" audio (some "digital")
    let v9 := set_percent v8 "Sub_UK" (find_sub subrights "uk") none
    let v10 := setVal v9 "Sub_Canada" "2/3"
    let v11 := setVal v10 "Sub_Export" "2/3"
    set_percent v11 "Sub_ForeignTranslation" (find_sub subrights "foreign translation") none

/-- The low-units formula stated by the specification:
`0` when the lifetime quantity already reached the threshold, else
`min(netUnitsThisPeriod, threshold - lifetimeQuantityBefore)`. -/
def claimLowUnits (lifetime_before net T : ℚ) : ℚ :=
  if T ≤ lifetime_before then 0 else min net (T - lifetime_before)

/-- The high-units formula stated by the specification. -/
def claimHighUnits (lifetime_before net T : ℚ) : ℚ :=
  net - claimLowUnits lifetime_before net T

/-- The format normalizer exactly as the claim words it: the e-book synonyms
are exact matches only.  (Second definition, written from the claim, to be
compared with `category_to_format`.) -/
def formatClaim9 (cat : String) : String :=
  let c := pyLower (pyStrip cat)
  if containsSub c "hc" && containsSub c "can" then "Hardcover"
  else if containsSub c "pb" && containsSub c "can" then "Paperback"
  else if pyStartsWith c "canada-" then
    if pyStartsWith (pyLower (String.mk (tailAfterFirstDash c.toList))) "hc" then "Hardcover"
    else "Paperback"
  else if c == "hardcover" || c == "hc" then "Hardcover"
  else if c == "paperback" || c == "pb" then "Paperback"
  else if c == "board book" || c == "boardbook" then "Board Book"
  else if c == "e-book" || c == "ebook" then "E-book"
  else cat

/-- The format normalizer as the amended claim words it: any string containing
"ebook", or exactly "e-book", maps to E-book; otherwise as the claim said. -/
def formatAmended9 (cat : String) : String :=
  let c := pyLower (pyStrip cat)
  if containsSub c "hc" && containsSub c "can" then "Hardcover"
  else if containsSub c "pb" && containsSub c "can" then "Paperback"
  else if pyStartsWith c "canada-" then
    if pyStartsWith (pyLower (String.mk (tailAfterFirstDash c.toList))) "hc" then "Hardcover"
    else "Paperback"
  else if c == "hardcover" || c == "hc" then "Hardcover"
  else if c == "paperback" || c == "pb" then "Paperback"
  else if c == "board book" || c == "boardbook" then "Board Book"
  else if containsSub c "ebook" || c == "e-book" then "E-book"
  else cat

/-- A counter/state pair with both dicts empty (every lookup defaults to 0). -/
def zeroState : CalcState :=
  { lifetime := fun _ => 0, returnsToDate := fun _ => 0 }

/-- The low tier of the worked schedule: 10 percent while lifetime units < 1000. -/
def tierLow1 : RoyaltyTier :=
  { rate_percent := 10, conditions := [{ kind := "units", comparator := "<", value := 1000 }] }

/-- The high tier of the worked schedule: 12 percent at or above 1000 units. -/
def tierHigh1 : RoyaltyTier :=
  { rate_percent := 12, conditions := [{ kind := "units", comparator := ">=", value := 1000 }] }

/-- The worked two-tier schedule from the specification's threshold example. -/
def block1 : RightsBlock :=
  { format := "Hardcover", base := "list_price", tiers := [tierLow1, tierHigh1],
    flat_rate_percent := none }

/-- A block whose sole tier requires discount < 50, with no flat rate. -/
def blockC2 : RightsBlock :=
  { format := "Hardcover", base := "list_price",
    tiers := [{ rate_percent := 10,
                conditions := [{ kind := "discount", comparator := "<", value := 50 }] }],
    flat_rate_percent := none }

/-- A block whose sole tier requires discount < 50, but which also carries a
flat rate of 12 percent. -/
def blockC2ce : RightsBlock :=
  { format := "Hardcover", base := "list_price",
    tiers := [{ rate_percent := 10,
                conditions := [{ kind := "discount", comparator := "<", value := 50 }] }],
    flat_rate_percent := some 12 }

/-- A malformed block: its only tier carries both a discount condition and a
units condition, and there is no flat rate. -/
def blockC5ce : RightsBlock :=
  { format := "Hardcover", base := "list_price",
    tiers := [{ rate_percent := 15,
                conditions := [{ kind := "discount", comparator := "<", value := 50 },
                               { kind := "units", comparator := "<", value := 1000 }] }],
    flat_rate_percent := none }

/-- A legacy-mode book: no rich royalty schedule. -/
def bookL : Book := { royalties := none }

/-- Legacy flat rates: 20 percent for category "X", nothing else. -/
def ratesX : String → ℚ := fun c => if c = "X" then 20 else 0

/-- A book with a rich schedule whose author side covers only Hardcover at a
flat 10 percent. -/
def book8 : Book :=
  { royalties := some
      { author := { first_rights :=
          [{ format := "Hardcover", base := "list_price", tiers := [],
             flat_rate_percent := some 10 }], subrights := [] }
        illustrator := { first_rights := [], subrights := [] } } }

/-- One sales entry in a category ("Mystery") that no rights block covers. -/
def sdMystery : SalesData :=
  { category := "Mystery", units := 5, returns := 1, unit_price_or_net_revenue := 3,
    discount := 0, net_revenue := false }

/-- Request whose only entry is the uncovered-category sale `sdMystery`. -/
def req8 : RoyaltyStatementRequest :=
  { uid := "b8", period_start := "2025-01-01", period_end := "2025-06-30",
    sales_data := [sdMystery], author_rates := fun _ => 0,
    illustrator_rates := fun _ => 0, author_advance := 0, illustrator_advance := 0 }

/-- Request used as the failing input for the lifetime-counter claim:
one entry of 10 units and 2 returns in category "X". -/
def reqC3 : RoyaltyStatementRequest :=
  { uid := "b1", period_start := "2025-01-01", period_end := "2025-06-30",
    sales_data := [{ category := "X", units := 10, returns := 2,
                     unit_price_or_net_revenue := 1, discount := 0, net_revenue := false }],
    author_rates := ratesX, illustrator_rates := fun _ => 0,
    author_advance := 0, illustrator_advance := 0 }

/-- First-period sales for the balance-carry scenario: 1000 units at 10 with a
20 percent legacy rate earn a 2000 royalty. -/
def salesC4a : List SalesData :=
  [{ category := "X", units := 1000, returns := 0, unit_price_or_net_revenue := 10,
     discount := 0, net_revenue := false }]

/-- Second-period sales for the balance-carry scenario: earn a 4000 royalty. -/
def salesC4b : List SalesData :=
  [{ category := "X", units := 2000, returns := 0, unit_price_or_net_revenue := 10,
     discount := 0, net_revenue := false }]

/-- A legacy sales entry whose returns exceed its units. -/
def sdNeg : SalesData :=
  { category := "X", units := 0, returns := 5, unit_price_or_net_revenue := 2,
    discount := 0, net_revenue := false }

/-- A covered rich-schedule sales entry with positive net units. -/
def sdHC : SalesData :=
  { category := "Hardcover", units := 5, returns := 2, unit_price_or_net_revenue := 4,
    discount := 0, net_revenue := false }

theorem setVal_apply_self (m : String → Option String) (k v : String) :
    setVal m k v k = some v := by
  simp [setVal]

theorem setVal_apply_ne (m : String → Option String) (k v x : String) (h : x ≠ k) :
    setVal m k v x = m x := by
  simp [setVal, h]

theorem set_percent_apply_ne (values : String → Option String) (token : String)
    (item : Option SubrightItem) (vk : Option String) (x : String) (h : x ≠ token) :
    set_percent values token item vk x = values x := by
  cases item with
  | none => rfl
  | some it =>
    cases vk with
    | some k =>
      show set_percent values token (some it) (some k) x = values x
      unfold set_percent
      dsimp only
      generalize it.variants.lookup k = res
      rcases res with _ | (_ | v)
      · rfl
      · rfl
      · simp [setVal, h]
    | none =>
      show set_percent values token (some it) none x = values x
      unfold set_percent
      dsimp only
      generalize it.percent = res
      rcases res with _ | p
      · rfl
      · simp [setVal, h]

/-- C7: for every subrights input list (including an empty one) and whatever
percent is stored on entries matching "Canada" or "Export", the resolver
always sets the Sub_Canada and Sub_Export tokens to the literal string "2/3". -/
theorem C7_canada_export_forced (subrights : List SubrightItem)
    (values : String → Option String) :
    _populate_subrights subrights values "Sub_Canada" = some "2/3"
    ∧ _populate_subrights subrights values "Sub_Export" = some "2/3" := by
  unfold _populate_subrights
  by_cases h : subrights.isEmpty
  · simp only [h, if_true]
    constructor
    · rw [setVal_apply_ne _ _ _ _ (by decide), setVal_apply_self]
    · rw [setVal_apply_self]
  · simp only [h, if_false, Bool.false_eq_true]
    constructor
    · rw [set_percent_apply_ne _ _ _ _ _ (by decide),
        setVal_apply_ne _ _ _ _ (by decide), setVal_apply_self]
    · rw [set_percent_apply_ne _ _ _ _ _ (by decide), setVal_apply_self]

/-- C9 counterexample: "facebook" is not one of the exact synonyms, so the
claim predicts passthrough, but the source's substring test on "ebook" maps
it to "E-book". -/
theorem C9_counterexample :
    category_to_format "facebook" = "E-book"
    ∧ formatClaim9 "facebook" = "facebook"
    ∧ ("E-book" : String) ≠ "facebook" := by
  refine ⟨?_, ?_, by decide⟩ <;> decide

/-- C9 (amended): the format normalizer behaves exactly as the claim states
except that the E-book rule fires on any string containing "ebook" (or equal
to "e-book"), not only on the exact synonyms. -/
theorem C9_format_normalizer (cat : String) :
    category_to_format cat = formatAmended9 cat := rfl

/-- C10: the net-revenue flag does not influence the computed amounts: the
line calculator returns identical fragments for any two flag values, and the
per-entry row differs only in its display marker (the counter updates agree
as well). -/
theorem C10_net_revenue_invariance :
    (∀ (block : RightsBlock) (lb net P d : ℚ) (m m' : Bool),
       _compute_line block lb net P d m = _compute_line block lb net P d m')
    ∧ (∀ (book : Book) (party : String) (rates : String → ℚ) (st : CalcState)
         (cat : String) (units rets : ℤ) (price disc : ℚ) (m : Bool),
       (processEntry book party rates st ⟨cat, units, rets, price, disc, m⟩).1
           = { (processEntry book party rates st ⟨cat, units, rets, price, disc, false⟩).1
                 with net_revenue := m }
       ∧ (processEntry book party rates st ⟨cat, units, rets, price, disc, m⟩).2
           = (processEntry book party rates st ⟨cat, units, rets, price, disc, false⟩).2) := by
  constructor
  · intro block lb net P d m m'
    rfl
  · intro book party rates st cat units rets price disc m
    exact ⟨rfl, rfl⟩

theorem pick_tiers_eliminated (block : RightsBlock) (discount : ℚ)
    (hany : (block.tiers.any fun t => t.conditions.any fun c => c.kind == "discount") = true)
    (hnone : block.tiers.filter (fun t => tierDiscountOk t discount) = []) :
    _pick_tiers block discount = [] := by
  unfold _pick_tiers
  simp [hany, hnone]

theorem compute_line_flat (block : RightsBlock) (lb net P d : ℚ) (m : Bool)
    (hpick : _pick_tiers block d = []) :
    _compute_line block lb net P d m
      = lineFromRate P net (block.flat_rate_percent.getD 0) := by
  unfold _compute_line
  rw [hpick]

/-- C4: lastBalance is the caller-supplied value except that a zero value with
a nonzero advance is replaced by the negated advance; then
balance = lastBalance + sum of the period's royalties and
payable = max(0, balance).  The conjunction ends with the worked two-period
scenario: advance 5000, royalty 2000 gives balance -3000 and payable 0, and
the follow-up period from lastBalance -3000 earning 4000 gives balance 1000
and payable 1000. -/
theorem C4_balance_carry (book : Book) (party : String) (rates : String → ℚ)
    (advance last_balance : ℚ) (sales : List SalesData) (st : CalcState) :
    ((calc_party book party rates advance last_balance sales st).1.last_balance
       = if last_balance = 0 ∧ ¬ advance = 0 then -advance else last_balance)
    ∧ ((calc_party book party rates advance last_balance sales st).1.balance
       = (calc_party book party rates advance last_balance sales st).1.last_balance
         + (calc_party book party rates advance last_balance sales st).1.royalty_total)
    ∧ ((calc_party book party rates advance last_balance sales st).1.payable
       = max 0 (calc_party book party rates advance last_balance sales st).1.balance)
    ∧ ((calc_party book party rates advance last_balance sales st).1.royalty_total
       = sumRowsRoyalty (calc_party book party rates advance last_balance sales st).1.rows)
    ∧ ((calc_party bookL "author" ratesX 5000 0 salesC4a zeroState).1.balance = -3000
       ∧ (calc_party bookL "author" ratesX 5000 0 salesC4a zeroState).1.payable = 0)
    ∧ ((calc_party bookL "author" ratesX 5000 (-3000) salesC4b zeroState).1.balance = 1000
       ∧ (calc_party bookL "author" ratesX 5000 (-3000) salesC4b zeroState).1.payable = 1000) := by
  refine ⟨rfl, rfl, rfl, rfl, ⟨?_, ?_⟩, ⟨?_, ?_⟩⟩ <;>
    norm_num [calc_party, runEntries, processEntry, sumRowsRoyalty, bookL, ratesX,
      salesC4a, salesC4b, zeroState]

/-- C2 (amended): when at least one tier declares a discount condition and no
tier's discount conditions are all satisfied, the tier resolver returns the
empty list, and — provided the block's flat rate is unset or zero — the line
earns no royalty while its value stays unitPrice * netUnits. -/
theorem C2_discount_gating (block : RightsBlock) (discount lb net P : ℚ) (m : Bool)
    (hany : (block.tiers.any fun t => t.conditions.any fun c => c.kind == "discount") = true)
    (hnone : block.tiers.filter (fun t => tierDiscountOk t discount) = [])
    (hflat : block.flat_rate_percent = none ∨ block.flat_rate_percent = some 0) :
    _pick_tiers block discount = []
    ∧ sumRoyalty (_compute_line block lb net P discount m) = 0
    ∧ sumValue (_compute_line block lb net P discount m) = P * net := by
  have hp := pick_tiers_eliminated block discount hany hnone
  have hc := compute_line_flat block lb net P discount m hp
  refine ⟨hp, ?_, ?_⟩
  · rw [hc]
    rcases hflat with h | h <;> simp [h, lineFromRate, sumRoyalty]
  · rw [hc]
    simp [lineFromRate, sumValue]

theorem C2_discount_gating_witness :
    ((blockC2.tiers.any fun t => t.conditions.any fun c => c.kind == "discount") = true)
    ∧ (blockC2.tiers.filter (fun t => tierDiscountOk t 55) = [])
    ∧ (_pick_tiers blockC2 55 = []
       ∧ sumRoyalty (_compute_line blockC2 0 7 3 55 false) = 0
       ∧ sumValue (_compute_line blockC2 0 7 3 55 false) = 3 * 7) := by
  have h1 : (blockC2.tiers.any fun t => t.conditions.any fun c => c.kind == "discount") = true := by
    rfl
  have h2 : blockC2.tiers.filter (fun t => tierDiscountOk t 55) = [] := by
    norm_num [blockC2, tierDiscountOk, comparatorApply, List.filter]
  exact ⟨h1, h2, C2_discount_gating blockC2 55 0 7 3 false h1 h2 (Or.inl rfl)⟩

/-- C2 counterexample: the same discount-gated sole tier, but with a stored
flat rate of 12 percent; the gated line then still earns a royalty of 6
(price 10, net units 5), so "the line earns no royalty" fails as a universal
statement about rights blocks. -/
theorem C2_counterexample :
    _pick_tiers blockC2ce 55 = []
    ∧ sumRoyalty (_compute_line blockC2ce 0 5 10 55 false) = 6
    ∧ (6:ℚ) ≠ 0 := by
  have hp : _pick_tiers blockC2ce 55 = [] := by
    norm_num [_pick_tiers, blockC2ce, tierDiscountOk, comparatorApply, List.filter]
  refine ⟨hp, ?_, by norm_num⟩
  rw [compute_line_flat _ _ _ _ _ _ hp]
  norm_num [lineFromRate, sumRoyalty, blockC2ce]

/-- C5 (amended): when discount filtering eliminates every tier of a block
that also carries a units-kind condition (a malformed schedule), the line
calculator computes a single whole-line fragment at the block's
flatRatePercent (0 when unset); being a total function, it raises nothing. -/
theorem C5_malformed_schedule_fallback (block : RightsBlock) (discount lb net P : ℚ) (m : Bool)
    (hany : (block.tiers.any fun t => t.conditions.any fun c => c.kind == "discount") = true)
    (hnone : block.tiers.filter (fun t => tierDiscountOk t discount) = [])
    (_hunits : block.tiers.any hasUnitsCond = true) :
    _compute_line block lb net P discount m
      = [⟨net, block.flat_rate_percent.getD 0, P * net,
          P * (block.flat_rate_percent.getD 0) / 100 * net⟩] := by
  rw [compute_line_flat block lb net P discount m (pick_tiers_eliminated block discount hany hnone)]
  rfl

theorem C5_malformed_schedule_fallback_witness :
    (blockC5ce.tiers.any hasUnitsCond = true)
    ∧ _compute_line blockC5ce 0 10 2 55 false
        = [⟨10, blockC5ce.flat_rate_percent.getD 0, 2 * 10,
            2 * (blockC5ce.flat_rate_percent.getD 0) / 100 * 10⟩] := by
  have h2 : blockC5ce.tiers.filter (fun t => tierDiscountOk t 55) = [] := by
    norm_num [blockC5ce, tierDiscountOk, comparatorApply, List.filter]
  exact ⟨rfl, C5_malformed_schedule_fallback blockC5ce 55 0 10 2 false rfl h2 rfl⟩

/-- C5 counterexample: on a malformed block whose sole tier (rate 15) carries
both a failing discount condition and a units condition, the emitted fragment
carries rate 0 (the unset flat rate), not the first unit-tier's rate 15. -/
theorem C5_counterexample :
    (_compute_line blockC5ce 0 10 2 55 false).map Fragment.rate_percent = [0]
    ∧ blockC5ce.tiers.head?.map RoyaltyTier.rate_percent = some 15
    ∧ ((0:ℚ) ≠ 15) := by
  have hp : _pick_tiers blockC5ce 55 = [] := by
    norm_num [_pick_tiers, blockC5ce, tierDiscountOk, comparatorApply, List.filter]
  refine ⟨?_, rfl, by norm_num⟩
  rw [compute_line_flat _ _ _ _ _ _ hp]
  rfl

theorem foldl_scanStep_filter (r : ℚ) (cs : List TierCondition)
    (acc : Option ℚ × Option ℚ × Option ℚ) :
    cs.foldl (scanStep r) acc
      = (cs.filter (fun c => c.kind == "units")).foldl (scanStep r) acc := by
  induction cs generalizing acc with
  | nil => rfl
  | cons c t ih =>
    by_cases h : (c.kind == "units") = true
    · simp only [List.foldl_cons, List.filter_cons, h, if_true]
      exact ih (scanStep r acc c)
    · have hstep : scanStep r acc c = acc := by
        simp [scanStep, h]
      simp only [List.foldl_cons, List.filter_cons, h, if_false, hstep, Bool.false_eq_true]
      exact ih acc

theorem scan_tier_low (tLow : RoyaltyTier) (cmpL : String) (T : ℚ)
    (hlowc : tLow.conditions.filter (fun c => c.kind == "units") = [⟨"units", cmpL, T⟩])
    (hcmpL : cmpL = "<" ∨ cmpL = "<=") (acc : Option ℚ × Option ℚ × Option ℚ) :
    tLow.conditions.foldl (scanStep tLow.rate_percent) acc
      = (some T, some tLow.rate_percent, acc.2.2) := by
  rw [foldl_scanStep_filter, hlowc]
  rcases hcmpL with h | h <;> subst h <;> rfl

theorem scan_tier_high (tHigh : RoyaltyTier) (cmpH : String) (vH : ℚ)
    (hhighc : tHigh.conditions.filter (fun c => c.kind == "units") = [⟨"units", cmpH, vH⟩])
    (hcmpH : cmpH = ">" ∨ cmpH = ">=") (acc : Option ℚ × Option ℚ × Option ℚ) :
    tHigh.conditions.foldl (scanStep tHigh.rate_percent) acc
      = (acc.1, acc.2.1, some tHigh.rate_percent) := by
  rw [foldl_scanStep_filter, hhighc]
  rcases hcmpH with h | h <;> subst h <;> rfl

theorem scanTiers_low_high (tLow tHigh : RoyaltyTier) (cmpL cmpH : String) (T vH : ℚ)
    (hlowc : tLow.conditions.filter (fun c => c.kind == "units") = [⟨"units", cmpL, T⟩])
    (hcmpL : cmpL = "<" ∨ cmpL = "<=")
    (hhighc : tHigh.conditions.filter (fun c => c.kind == "units") = [⟨"units", cmpH, vH⟩])
    (hcmpH : cmpH = ">" ∨ cmpH = ">=") :
    scanTiers [tLow, tHigh] = (some T, some tLow.rate_percent, some tHigh.rate_percent) := by
  unfold scanTiers
  simp only [List.foldl_cons, List.foldl_nil]
  rw [scan_tier_low tLow cmpL T hlowc hcmpL, scan_tier_high tHigh cmpH vH hhighc hcmpH]

theorem scanTiers_high_low (tLow tHigh : RoyaltyTier) (cmpL cmpH : String) (T vH : ℚ)
    (hlowc : tLow.conditions.filter (fun c => c.kind == "units") = [⟨"units", cmpL, T⟩])
    (hcmpL : cmpL = "<" ∨ cmpL = "<=")
    (hhighc : tHigh.conditions.filter (fun c => c.kind == "units") = [⟨"units", cmpH, vH⟩])
    (hcmpH : cmpH = ">" ∨ cmpH = ">=") :
    scanTiers [tHigh, tLow] = (some T, some tLow.rate_percent, some tHigh.rate_percent) := by
  unfold scanTiers
  simp only [List.foldl_cons, List.foldl_nil]
  rw [scan_tier_high tHigh cmpH vH hhighc hcmpH, scan_tier_low tLow cmpL T hlowc hcmpL]

theorem compute_line_two_tier (block : RightsBlock) (tLow tHigh : RoyaltyTier)
    (cmpL cmpH : String) (T vH lb net P discount : ℚ) (m : Bool)
    (hpick : (_pick_tiers block discount).filter hasUnitsCond = [tLow, tHigh]
           ∨ (_pick_tiers block discount).filter hasUnitsCond = [tHigh, tLow])
    (hlowc : tLow.conditions.filter (fun c => c.kind == "units") = [⟨"units", cmpL, T⟩])
    (hcmpL : cmpL = "<" ∨ cmpL = "<=")
    (hhighc : tHigh.conditions.filter (fun c => c.kind == "units") = [⟨"units", cmpH, vH⟩])
    (hcmpH : cmpH = ">" ∨ cmpH = ">=") :
    _compute_line block lb net P discount m
      = add_fragment P (_prorate_units_across_threshold lb net T).1 (some tLow.rate_percent)
        ++ add_fragment P (_prorate_units_across_threshold lb net T).2 (some tHigh.rate_percent) := by
  cases hp : _pick_tiers block discount with
  | nil =>
    rw [hp] at hpick
    rcases hpick with h | h <;> simp at h
  | cons t0 trest =>
    rw [hp] at hpick
    unfold _compute_line
    rw [hp]
    show computeTiered t0 trest lb net P = _
    unfold computeTiered
    rcases hpick with h | h
    · rw [h]
      show computeUnitTiers tLow [tHigh] lb net P = _
      unfold computeUnitTiers
      rw [scanTiers_low_high tLow tHigh cmpL cmpH T vH hlowc hcmpL hhighc hcmpH]
    · rw [h]
      show computeUnitTiers tHigh [tLow] lb net P = _
      unfold computeUnitTiers
      rw [scanTiers_high_low tLow tHigh cmpL cmpH T vH hlowc hcmpL hhighc hcmpH]

theorem prorate_eq_claim (lb net T : ℚ) (hnet : 0 ≤ net) :
    _prorate_units_across_threshold lb net T
      = (claimLowUnits lb net T, claimHighUnits lb net T)
    ∧ 0 ≤ claimLowUnits lb net T ∧ claimLowUnits lb net T ≤ net := by
  unfold _prorate_units_across_threshold claimHighUnits claimLowUnits
  by_cases h : T ≤ lb
  · simp [h, hnet]
  · have hlt : lb < T := lt_of_not_le h
    have h0 : (0:ℚ) ≤ T - lb := by linarith
    have hminle : min net (T - lb) ≤ net := min_le_left _ _
    have hmin0 : 0 ≤ min net (T - lb) := le_min hnet h0
    simp only [h, if_false]
    refine ⟨?_, hmin0, hminle⟩
    simp only [max_eq_right h0]
    rw [max_eq_right (by linarith : (0:ℚ) ≤ net - min net (T - lb))]

theorem add_fragment_some (P u r : ℚ) :
    add_fragment P u (some r)
      = if 0 < u then [⟨u, r, P * u, P * r / 100 * u⟩] else [] := by
  unfold add_fragment
  by_cases h : u ≤ 0
  · simp [h, not_lt.mpr h]
  · simp [h, lt_of_not_le h]

/-- C1: for a rights block whose discount-surviving tiers contain exactly two
units-conditioned tiers — a low tier (comparator < or <=) fixing threshold T
and a high tier (comparator > or >=) — and any lifetime-before, non-negative
period net units and unit price: at or past the threshold everything is
charged at the high rate; below it, lowUnits = min(net, T - lifetimeBefore)
goes at the low rate and the remainder at the high rate, each fragment being
emitted only when its unit count is positive, and the line royalty equals
P * (lowUnits*rLow + highUnits*rHigh) / 100. -/
theorem C1_threshold_proration (block : RightsBlock) (tLow tHigh : RoyaltyTier)
    (cmpL cmpH : String) (T vH lb net P discount : ℚ) (m : Bool)
    (hpick : (_pick_tiers block discount).filter hasUnitsCond = [tLow, tHigh]
           ∨ (_pick_tiers block discount).filter hasUnitsCond = [tHigh, tLow])
    (hlowc : tLow.conditions.filter (fun c => c.kind == "units") = [⟨"units", cmpL, T⟩])
    (hcmpL : cmpL = "<" ∨ cmpL = "<=")
    (hhighc : tHigh.conditions.filter (fun c => c.kind == "units") = [⟨"units", cmpH, vH⟩])
    (hcmpH : cmpH = ">" ∨ cmpH = ">=")
    (hnet : 0 ≤ net) :
    (_compute_line block lb net P discount m
      = (if 0 < claimLowUnits lb net T then
           [⟨claimLowUnits lb net T, tLow.rate_percent, P * claimLowUnits lb net T,
             P * tLow.rate_percent / 100 * claimLowUnits lb net T⟩] else [])
        ++ (if 0 < claimHighUnits lb net T then
           [⟨claimHighUnits lb net T, tHigh.rate_percent, P * claimHighUnits lb net T,
             P * tHigh.rate_percent / 100 * claimHighUnits lb net T⟩] else []))
    ∧ sumRoyalty (_compute_line block lb net P discount m)
        = P * (claimLowUnits lb net T * tLow.rate_percent
               + claimHighUnits lb net T * tHigh.rate_percent) / 100 := by
  obtain ⟨hpr, hl0, hln⟩ := prorate_eq_claim lb net T hnet
  have hcl := compute_line_two_tier block tLow tHigh cmpL cmpH T vH lb net P discount m
    hpick hlowc hcmpL hhighc hcmpH
  rw [hpr] at hcl
  dsimp only at hcl
  rw [hcl, add_fragment_some, add_fragment_some]
  refine ⟨rfl, ?_⟩
  have hh0 : 0 ≤ claimHighUnits lb net T := by
    unfold claimHighUnits
    linarith
  by_cases h1 : 0 < claimLowUnits lb net T <;> by_cases h2 : 0 < claimHighUnits lb net T
  · simp only [h1, h2, if_true]
    simp [sumRoyalty]
    ring
  · have hz2 : claimHighUnits lb net T = 0 := le_antisymm (not_lt.mp h2) hh0
    simp only [h1, h2, if_true, if_false]
    simp [sumRoyalty, hz2]
    ring
  · have hz1 : claimLowUnits lb net T = 0 := le_antisymm (not_lt.mp h1) hl0
    simp only [h1, h2, if_true, if_false]
    simp [sumRoyalty, hz1]
    ring
  · have hz1 : claimLowUnits lb net T = 0 := le_antisymm (not_lt.mp h1) hl0
    have hz2 : claimHighUnits lb net T = 0 := le_antisymm (not_lt.mp h2) hh0
    simp only [h1, h2, if_false]
    simp [sumRoyalty, hz1, hz2]

theorem C1_threshold_proration_witness :
    (0:ℚ) ≤ 300
    ∧ _compute_line block1 900 300 20 0 false
        = [⟨100, 10, 2000, 200⟩, ⟨200, 12, 4000, 480⟩] := by
  constructor
  · norm_num
  · have h := (C1_threshold_proration block1 tierLow1 tierHigh1 "<" ">=" 1000 1000 900 300 20 0
      false (Or.inl (by decide)) (by decide) (Or.inl rfl) (by decide) (Or.inr rfl)
      (by norm_num)).1
    rw [h]
    norm_num [claimLowUnits, claimHighUnits, tierLow1, tierHigh1, min_def]

theorem sumValue_append (a b : List Fragment) :
    sumValue (a ++ b) = sumValue a + sumValue b := by
  simp [sumValue]

theorem sumValue_add_fragment (P u : ℚ) (r : Option ℚ) :
    sumValue (add_fragment P u r) = if 0 < u then P * u else 0 := by
  unfold add_fragment
  by_cases h : u ≤ 0
  · simp [sumValue, h, not_lt.mpr h]
  · simp [sumValue, h, lt_of_not_le h]

theorem sumValue_lineFromRate (P net r : ℚ) :
    sumValue (lineFromRate P net r) = P * net := by
  simp [sumValue, lineFromRate]

theorem sumValue_compute_line (block : RightsBlock) (lb net P d : ℚ) (m : Bool)
    (hnet : 0 ≤ net) :
    sumValue (_compute_line block lb net P d m) = P * net := by
  unfold _compute_line
  cases hp : _pick_tiers block d with
  | nil => exact sumValue_lineFromRate P net _
  | cons t0 tr =>
    show sumValue (computeTiered t0 tr lb net P) = P * net
    unfold computeTiered
    cases hu : (t0 :: tr).filter hasUnitsCond with
    | nil => exact sumValue_lineFromRate P net _
    | cons u0 ur =>
      show sumValue (computeUnitTiers u0 ur lb net P) = P * net
      unfold computeUnitTiers
      cases hs : scanTiers (u0 :: ur) with
      | mk thr rest =>
        cases rest with
        | mk lr hr =>
          cases thr with
          | none => exact sumValue_lineFromRate P net _
          | some T =>
            obtain ⟨hpr, hl0, hln⟩ := prorate_eq_claim lb net T hnet
            show sumValue
                (add_fragment P (_prorate_units_across_threshold lb net T).1 lr
                 ++ add_fragment P (_prorate_units_across_threshold lb net T).2 hr) = P * net
            rw [hpr]
            dsimp only
            rw [sumValue_append, sumValue_add_fragment, sumValue_add_fragment]
            have hh0 : 0 ≤ claimHighUnits lb net T := by
              unfold claimHighUnits
              linarith
            have hsum : claimLowUnits lb net T + claimHighUnits lb net T = net := by
              unfold claimHighUnits
              ring
            by_cases h1 : 0 < claimLowUnits lb net T <;>
              by_cases h2 : 0 < claimHighUnits lb net T <;>
              simp only [h1, h2, if_true, if_false]
            · rw [← mul_add, hsum]
            · have hl : claimLowUnits lb net T = net := by
                have hz2 : claimHighUnits lb net T = 0 := le_antisymm (not_lt.mp h2) hh0
                linarith
              rw [hl]
              ring
            · have hh : claimHighUnits lb net T = net := by
                have hz1 : claimLowUnits lb net T = 0 := le_antisymm (not_lt.mp h1) hl0
                linarith
              rw [hh]
              ring
            · have hn0 : net = 0 := by
                have hz1 : claimLowUnits lb net T = 0 := le_antisymm (not_lt.mp h1) hl0
                have hz2 : claimHighUnits lb net T = 0 := le_antisymm (not_lt.mp h2) hh0
                linarith
              rw [hn0]
              ring

/-- C6 (amended): every row's netUnits is units - returns with no clamping
(it may be negative), and whenever the net-revenue flag is false and the
period's net units are non-negative, the row's valueAmount equals
unitPrice * netUnits in every computation path (tiered, flat, missing-block,
legacy). -/
theorem C6_net_units_and_value (book : Book) (party : String) (rates : String → ℚ)
    (st : CalcState) (sd : SalesData)
    (_hflag : sd.net_revenue = false) (hnn : 0 ≤ sd.units - sd.returns) :
    (processEntry book party rates st sd).1.net_units = sd.units - sd.returns
    ∧ (processEntry book party rates st sd).1.value
        = sd.unit_price_or_net_revenue * ((sd.units - sd.returns : ℤ) : ℚ) := by
  have hmax : max (sd.units - sd.returns) 0 = sd.units - sd.returns := max_eq_left hnn
  obtain ⟨roy⟩ := book
  cases roy with
  | none =>
    refine ⟨rfl, ?_⟩
    unfold processEntry
    dsimp only
    rw [hmax]
  | some r =>
    cases hf : _find_rights_block ⟨some r⟩ party (category_to_format sd.category) with
    | none =>
      refine ⟨rfl, ?_⟩
      unfold processEntry
      dsimp only
      rw [hf]
      dsimp only
      rw [hmax]
    | some blk =>
      refine ⟨rfl, ?_⟩
      unfold processEntry
      dsimp only
      rw [hf]
      dsimp only
      exact sumValue_compute_line blk _ _ _ _ _ (by exact_mod_cast hnn)

theorem C6_net_units_and_value_witness :
    sdHC.net_revenue = false
    ∧ (0:ℤ) ≤ sdHC.units - sdHC.returns
    ∧ (processEntry book8 "author" ratesX zeroState sdHC).1.net_units
        = sdHC.units - sdHC.returns
    ∧ (processEntry book8 "author" ratesX zeroState sdHC).1.value
        = sdHC.unit_price_or_net_revenue * ((sdHC.units - sdHC.returns : ℤ) : ℚ) := by
  have h := C6_net_units_and_value book8 "author" ratesX zeroState sdHC rfl (by decide)
  exact ⟨rfl, by decide, h.1, h.2⟩

/-- C6 counterexample: with units 0 and returns 5 in legacy mode (flag false),
netUnits is -5 but the row's valueAmount is clamped to 0, not
unitPrice * netUnits = -10, so the claimed identity fails for negative net
units. -/
theorem C6_counterexample :
    (processEntry bookL "author" ratesX zeroState sdNeg).1.net_units = -5
    ∧ sdNeg.net_revenue = false
    ∧ (processEntry bookL "author" ratesX zeroState sdNeg).1.value = 0
    ∧ sdNeg.unit_price_or_net_revenue * ((sdNeg.units - sdNeg.returns : ℤ) : ℚ) = -10
    ∧ ((0:ℚ) ≠ -10) := by
  refine ⟨by decide, rfl, ?_, ?_, by norm_num⟩
  · norm_num [processEntry, bookL, ratesX, zeroState, sdNeg]
  · norm_num [sdNeg]

theorem processEntry_missing (book : Book) (party : String) (rates : String → ℚ)
    (st : CalcState) (sd : SalesData)
    (hroy : book.royalties.isSome = true)
    (hmiss : _find_rights_block book party (category_to_format sd.category) = none) :
    (processEntry book party rates st sd).1.value
        = sd.unit_price_or_net_revenue * ((max (sd.units - sd.returns) 0 : ℤ) : ℚ)
    ∧ (processEntry book party rates st sd).1.royalty = 0 := by
  obtain ⟨roy⟩ := book
  cases roy with
  | none => simp at hroy
  | some r =>
    constructor
    · unfold processEntry
      dsimp only
      rw [hmiss]
    · unfold processEntry
      dsimp only
      rw [hmiss]

theorem runEntries_length (book : Book) (party : String) (rates : String → ℚ)
    (sales : List SalesData) (st : CalcState) :
    (runEntries book party rates sales st).1.length = sales.length := by
  induction sales generalizing st with
  | nil => rfl
  | cons sd rest ih =>
    unfold runEntries
    dsimp only
    rw [List.length_cons, ih, List.length_cons]

theorem runEntries_missing_row (book : Book) (party : String) (rates : String → ℚ)
    (sales : List SalesData) (st : CalcState) (i : ℕ) (sd : SalesData)
    (hroy : book.royalties.isSome = true)
    (hmiss : _find_rights_block book party (category_to_format sd.category) = none)
    (hsd : sales[i]? = some sd) :
    ∃ r, (runEntries book party rates sales st).1[i]? = some r
      ∧ r.value = sd.unit_price_or_net_revenue * ((max (sd.units - sd.returns) 0 : ℤ) : ℚ)
      ∧ r.royalty = 0 := by
  revert hsd
  induction sales generalizing st i with
  | nil =>
    intro hsd
    simp at hsd
  | cons sd0 rest ih =>
    intro hsd
    cases i with
    | zero =>
      have hz : sd0 = sd := by simpa using hsd
      subst hz
      obtain ⟨hv, hr⟩ := processEntry_missing book party rates st sd0 hroy hmiss
      refine ⟨(processEntry book party rates st sd0).1, ?_, hv, hr⟩
      show (runEntries book party rates (sd0 :: rest) st).1[0]? = _
      unfold runEntries
      dsimp only
      exact List.getElem?_cons_zero
    | succ n =>
      have hsd' : rest[n]? = some sd := by simpa using hsd
      obtain ⟨r, hget, hv, hr⟩ := ih (processEntry book party rates st sd0).2 n hsd'
      refine ⟨r, ?_, hv, hr⟩
      show (runEntries book party rates (sd0 :: rest) st).1[n + 1]? = some r
      unfold runEntries
      dsimp only
      simpa using hget

/-- C8: when a sales entry's normalized format has no matching rights block
while the party does carry a rich schedule, the produced row reports
valueAmount = unitPrice * max(netUnits, 0) and royaltyAmount = 0, the party's
row list still has one row per sales entry, and both parties' statements are
produced with full-length row lists. -/
theorem C8_missing_block (book : Book) (party : String) (rates : String → ℚ)
    (advance last_balance : ℚ) (st : CalcState) (i : ℕ) (sd : SalesData)
    (req : RoyaltyStatementRequest) (lt rt : String → ℤ) (lba lbi : ℚ)
    (hroy : book.royalties.isSome = true)
    (hsd : req.sales_data[i]? = some sd)
    (hmiss : _find_rights_block book party (category_to_format sd.category) = none) :
    (∃ r, (calc_party book party rates advance last_balance req.sales_data st).1.rows[i]?
            = some r
        ∧ r.value = sd.unit_price_or_net_revenue * ((max (sd.units - sd.returns) 0 : ℤ) : ℚ)
        ∧ r.royalty = 0)
    ∧ (calc_party book party rates advance last_balance req.sales_data st).1.rows.length
        = req.sales_data.length
    ∧ (calculate_statement book req lt rt lba lbi).author.rows.length
        = req.sales_data.length
    ∧ (calculate_statement book req lt rt lba lbi).illustrator.rows.length
        = req.sales_data.length := by
  refine ⟨?_, ?_, ?_, ?_⟩
  · exact runEntries_missing_row book party rates req.sales_data st i sd hroy hmiss hsd
  · exact runEntries_length book party rates req.sales_data st
  · exact runEntries_length book "author" req.author_rates req.sales_data
      { lifetime := lt, returnsToDate := rt }
  · exact runEntries_length book "illustrator" req.illustrator_rates req.sales_data
      (calc_party book "author" req.author_rates req.author_advance lba req.sales_data
        { lifetime := lt, returnsToDate := rt }).2

theorem C8_missing_block_witness :
    (book8.royalties.isSome = true)
    ∧ req8.sales_data[0]? = some sdMystery
    ∧ _find_rights_block book8 "author" (category_to_format sdMystery.category) = none
    ∧ (∃ r, (calc_party book8 "author" (fun _ => 0) 0 0 req8.sales_data zeroState).1.rows[0]?
              = some r
          ∧ r.value = sdMystery.unit_price_or_net_revenue
              * ((max (sdMystery.units - sdMystery.returns) 0 : ℤ) : ℚ)
          ∧ r.royalty = 0)
    ∧ (calculate_statement book8 req8 (fun _ => 0) (fun _ => 0) 0 0).author.rows.length
        = req8.sales_data.length
    ∧ (calculate_statement book8 req8 (fun _ => 0) (fun _ => 0) 0 0).illustrator.rows.length
        = req8.sales_data.length := by
  have hmiss : _find_rights_block book8 "author" (category_to_format sdMystery.category)
      = none := by decide
  have h := C8_missing_block book8 "author" (fun _ => 0) 0 0 zeroState 0 sdMystery req8
    (fun _ => 0) (fun _ => 0) 0 0 rfl rfl hmiss
  exact ⟨rfl, rfl, hmiss, h.1, h.2.2.1, h.2.2.2⟩

/-- C3: the code evaluated at the failing input.  One entry of 10 units and
2 returns in category "X" from zero counters: the statement returns lifetime
16 and returns-to-date 4, because the author pass and the illustrator pass
each add the period's figures (net 8, returns 2) to the shared counter maps,
while the claim requires one addition per statement (8 and 2). -/
theorem C3_counters_double_update :
    (calculate_statement bookL reqC3 (fun _ => 0) (fun _ => 0) 0 0).lifetime_quantity_by_cat "X"
      = 16
    ∧ (calculate_statement bookL reqC3 (fun _ => 0) (fun _ => 0) 0 0).returns_to_date_by_cat "X"
      = 4
    ∧ netSumCat reqC3.sales_data "X" = 8
    ∧ retSumCat reqC3.sales_data "X" = 2
    ∧ ((16:ℤ) ≠ 0 + 8)
    ∧ ((4:ℤ) ≠ 0 + 2) := by
  refine ⟨?_, ?_, by decide, by decide, by decide, by decide⟩ <;> decide
